import Mathlib

/-!
Verification of the window-lifecycle / settings backend in
`src/src-tauri/src/lib.rs` (a Tauri application).

The Rust source is shallowly embedded:

* Persisted settings are modelled at the JSON-value level: `serde_json`
  (de)serialization of the `Settings` struct is embedded as `settingsToJson` /
  `settingsFromJson`, following the struct's serde attributes
  (`rename_all = "camelCase"`, `#[serde(default)]` on `system_prompt`,
  `model_shortcuts`, `send_on_enter`).  The `HashMap<String, String>` is
  modelled as an association list.  The configuration file is an
  `Option Json` (`none` = file absent); path resolution and raw file I/O
  (`get_config_path`, `fs::read_to_string`, `fs::write`, `ensure_config_dir`)
  are external OS facilities modelled as succeeding.
* The autostart plugin state is an environment record carrying the result of
  `is_enabled()` and of the `enable()` / `disable()` calls; the embedding of
  `sync_launch_at_startup` returns the list of OS toggle calls it performs
  together with its `Result`.
* Window geometry: Rust `i32` values are `ℤ` (arithmetic assumed
  non-overflowing), `u32` values are `ℕ`, and the `as i32` reinterpreting
  cast is `u32_to_i32` (exact two's-complement semantics).  Rust `i32`
  division `/` truncates toward zero and is embedded as `Int.tdiv`.
  `f64` arithmetic (`resize_window`'s `round`, `reset_window`'s scale-factor
  conversion) is modelled as exact `ℚ` arithmetic with Rust's rounding
  (`f64::round` = half away from zero, `rustRound`) and Rust's saturating
  float-to-integer casts (`rustF64ToU32`, `rustF64ToI32`).
* The Tauri window registry is a list of labelled windows; a freshly built
  window has the builder defaults `visible = true`, `focused = true`,
  `alwaysOnTop = false`.  `WebviewWindowBuilder::build` is external and may
  fail; the environment flag `buildOk` records whether it succeeds.
  `app.emit("new-chat", ())` is modelled by appending the event name to the
  emitted-event trace (the payload is the unit value).
-/

namespace AiQuickAccess

/-! ### JSON values (the fragment `Settings` serialization uses) -/

inductive Json where
  | str (s : String)
  | bool (b : Bool)
  | obj (fields : List (String × Json))

/-- The `Settings` struct (`lib.rs` lines 15–28).  `model_shortcuts` is the
`HashMap<String, String>` modelled as an association list. -/
structure Settings where
  api_key : String
  selected_model : String
  dark_mode : Bool
  auto_start : Bool
  system_prompt : String
  model_shortcuts : List (String × String)
  send_on_enter : Bool
deriving DecidableEq

/-- Field lookup in a JSON object. -/
def jsonGet (k : String) : List (String × Json) → Option Json
  | [] => none
  | (k', v) :: rest => if k' = k then some v else jsonGet k rest

/-- A required `String` field (no `#[serde(default)]`): missing or ill-typed
fields are deserialization errors. -/
def reqStr (fs : List (String × Json)) (k : String) : Except String String :=
  match jsonGet k fs with
  | some (Json.str s) => Except.ok s
  | some _ => Except.error ("Failed to parse config file: invalid type for field " ++ k)
  | none => Except.error ("Failed to parse config file: missing field " ++ k)

/-- A required `bool` field. -/
def reqBool (fs : List (String × Json)) (k : String) : Except String Bool :=
  match jsonGet k fs with
  | some (Json.bool b) => Except.ok b
  | some _ => Except.error ("Failed to parse config file: invalid type for field " ++ k)
  | none => Except.error ("Failed to parse config file: missing field " ++ k)

/-- A `String` field with `#[serde(default)]`: missing yields `String::new()`. -/
def optStr (fs : List (String × Json)) (k : String) (dflt : String) : Except String String :=
  match jsonGet k fs with
  | none => Except.ok dflt
  | some (Json.str s) => Except.ok s
  | some _ => Except.error ("Failed to parse config file: invalid type for field " ++ k)

/-- A `bool` field with `#[serde(default)]`. -/
def optBool (fs : List (String × Json)) (k : String) (dflt : Bool) : Except String Bool :=
  match jsonGet k fs with
  | none => Except.ok dflt
  | some (Json.bool b) => Except.ok b
  | some _ => Except.error ("Failed to parse config file: invalid type for field " ++ k)

/-- Deserializing a JSON object into a `HashMap<String, String>`. -/
def asStrPairs : List (String × Json) → Except String (List (String × String))
  | [] => Except.ok []
  | (k, Json.str v) :: rest =>
    match asStrPairs rest with
    | Except.ok r => Except.ok ((k, v) :: r)
    | Except.error e => Except.error e
  | (_, _) :: _ => Except.error "Failed to parse config file: invalid shortcut map"

/-- A map field with `#[serde(default)]`: missing yields `HashMap::new()`. -/
def optPairs (fs : List (String × Json)) (k : String) (dflt : List (String × String)) :
    Except String (List (String × String)) :=
  match jsonGet k fs with
  | none => Except.ok dflt
  | some (Json.obj ps) => asStrPairs ps
  | some _ => Except.error ("Failed to parse config file: invalid type for field " ++ k)

/-- `serde_json::to_string_pretty(&settings)` at the JSON-value level:
camelCase keys in struct declaration order. -/
def settingsToJson (s : Settings) : Json :=
  Json.obj [("apiKey", Json.str s.api_key),
            ("selectedModel", Json.str s.selected_model),
            ("darkMode", Json.bool s.dark_mode),
            ("autoStart", Json.bool s.auto_start),
            ("systemPrompt", Json.str s.system_prompt),
            ("modelShortcuts", Json.obj (s.model_shortcuts.map (fun kv => (kv.1, Json.str kv.2)))),
            ("sendOnEnter", Json.bool s.send_on_enter)]

/-- `serde_json::from_str::<Settings>` at the JSON-value level: the four
plain fields are required, the three `#[serde(default)]` fields fall back to
`Default::default()` of their types when the key is absent. -/
def settingsFromJson (j : Json) : Except String Settings :=
  match j with
  | Json.obj fs =>
    match reqStr fs "apiKey", reqStr fs "selectedModel",
          reqBool fs "darkMode", reqBool fs "autoStart" with
    | Except.ok ak, Except.ok sm, Except.ok dm, Except.ok au =>
      match optStr fs "systemPrompt" "", optPairs fs "modelShortcuts" [],
            optBool fs "sendOnEnter" false with
      | Except.ok sp, Except.ok ms, Except.ok se =>
        Except.ok { api_key := ak, selected_model := sm, dark_mode := dm, auto_start := au,
                    system_prompt := sp, model_shortcuts := ms, send_on_enter := se }
      | Except.error e, _, _ => Except.error e
      | _, Except.error e, _ => Except.error e
      | _, _, Except.error e => Except.error e
    | Except.error e, _, _, _ => Except.error e
    | _, Except.error e, _, _ => Except.error e
    | _, _, Except.error e, _ => Except.error e
    | _, _, _, Except.error e => Except.error e
  | _ => Except.error "Failed to parse config file: expected object"

/-- The default record built inline in `load_settings` (`lib.rs` lines 69–81). -/
def default_settings : Settings :=
  { api_key := ""
    selected_model := "openai/gpt-oss-120b"
    dark_mode := true
    auto_start := false
    system_prompt := "Keep your responses as concise, precise, to the point.\nAnswer the question in as few words as possible.\nNo Yapping."
    model_shortcuts := [("h", "google/gemini-3-pro-preview"),
                        ("f", "google/gemini-3-flash-preview"),
                        ("o", "openai/gpt-oss-120b")]
    send_on_enter := false }

/-- `load_settings` (`lib.rs` lines 63–89).  The persisted file is
`Option Json` (`none` = `!config_path.exists()`). -/
def load_settings (file : Option Json) : Except String Settings :=
  match file with
  | none => Except.ok default_settings
  | some j => settingsFromJson j

/-! ### Autostart synchronizer -/

/-- An OS toggle call performed by the autostart plugin. -/
inductive OsCall where
  | enableCall
  | disableCall
deriving DecidableEq

/-- Environment for `sync_launch_at_startup`: the results the
`tauri_plugin_autostart` manager would return. -/
structure AutostartEnv where
  isEnabled : Except String Bool
  enableResult : Except String Unit
  disableResult : Except String Unit

/-- `sync_launch_at_startup` (`lib.rs` lines 44–61): returns the OS toggle
calls performed (in order) and the function's `Result`. -/
def sync_launch_at_startup (enable : Bool) (env : AutostartEnv) :
    List OsCall × Except String Unit :=
  match env.isEnabled with
  | Except.error e => ([], Except.error ("Failed to read launch at startup state: " ++ e))
  | Except.ok currently_enabled =>
    if enable && !currently_enabled then
      ([OsCall.enableCall],
        match env.enableResult with
        | Except.ok _ => Except.ok ()
        | Except.error e => Except.error ("Failed to enable launch at startup: " ++ e))
    else if !enable && currently_enabled then
      ([OsCall.disableCall],
        match env.disableResult with
        | Except.ok _ => Except.ok ()
        | Except.error e => Except.error ("Failed to disable launch at startup: " ++ e))
    else ([], Except.ok ())

/-- `save_settings` (`lib.rs` lines 91–105): serialize, write the file, then
sync autostart.  Returns the new file contents and the command's `Result`
(directory creation and the write itself are modelled as succeeding). -/
def save_settings (s : Settings) (env : AutostartEnv) : Option Json × Except String Unit :=
  (some (settingsToJson s), (sync_launch_at_startup s.auto_start env).2)

/-! ### Round-trip lemmas -/

theorem asStrPairs_map (l : List (String × String)) :
    asStrPairs (l.map (fun kv => (kv.1, Json.str kv.2))) = Except.ok l := by
  induction l with
  | nil => rfl
  | cons hd tl ih => cases hd; simp [asStrPairs, ih]

theorem settings_roundtrip (s : Settings) :
    settingsFromJson (settingsToJson s) = Except.ok s := by
  simp [settingsToJson, settingsFromJson, reqStr, reqBool, optStr, optBool, optPairs,
    jsonGet, asStrPairs_map]

/-! ### Numeric primitives of the geometry code -/

/-- The Rust `u32 as i32` reinterpreting cast (two's complement). -/
def u32_to_i32 (n : ℕ) : ℤ :=
  if n % 4294967296 < 2147483648 then ((n % 4294967296 : ℕ) : ℤ)
  else ((n % 4294967296 : ℕ) : ℤ) - 4294967296

/-- Computable floor of a rational (`⌊q⌋`; `Int./` is Euclidean division and
the denominator is positive). -/
def ratFloor (q : ℚ) : ℤ := q.num / q.den

theorem ratFloor_eq (q : ℚ) : ratFloor q = ⌊q⌋ := Rat.floor_def.symm

/-- Rust `f64::round`: round half away from zero (the `f64` arithmetic of the
source is modelled as exact rational arithmetic). -/
def rustRound (q : ℚ) : ℤ :=
  if 0 ≤ q then ratFloor (q + 1/2) else -ratFloor (-q + 1/2)

/-- Rust `as u32` on an `f64` whose value is the integer `x`: saturating cast. -/
def rustF64ToU32 (x : ℤ) : ℕ :=
  if x < 0 then 0 else min x.toNat 4294967295

/-- Rust `as i32` on an `f64` with exact rational value `q`: truncate toward
zero, then saturate to the `i32` range. -/
def rustF64ToI32 (q : ℚ) : ℤ :=
  max (-2147483648) (min 2147483647 (if 0 ≤ q then ratFloor q else -ratFloor (-q)))

/-! ### Monitors, windows, application state -/

/-- A monitor as reported by the OS: physical position (`i32`), physical size
(`u32`), scale factor (`f64`, modelled as `ℚ`). -/
structure Monitor where
  posX : ℤ
  posY : ℤ
  width : ℕ
  height : ℕ
  scaleFactor : ℚ
deriving DecidableEq

/-- A window size as last set: Tauri distinguishes physical and logical sizes. -/
inductive WinSize where
  | physical (w h : ℕ)
  | logical (w h : ℚ)
deriving DecidableEq

/-- The state of one webview window. -/
structure WindowState where
  visible : Bool
  focused : Bool
  alwaysOnTop : Bool
  pos : ℤ × ℤ
  size : WinSize
deriving DecidableEq

/-- The Tauri application state: the window registry (label-keyed) and the
trace of events emitted to the front-end. -/
structure AppState where
  windows : List (String × WindowState)
  emitted : List String
deriving DecidableEq

/-- The OS environment a lifecycle call runs in: the mouse-position query
result, the `available_monitors()` result, the window's
`current_monitor()` result, whether `WebviewWindowBuilder::build` succeeds,
the OS-chosen position of a freshly created window, and the window's scale
factor (used by Tauri to convert logical sizes to physical ones). -/
structure Env where
  mouse : Option (ℤ × ℤ)
  monitors : Option (List Monitor)
  currentMonitor : Option Monitor
  buildOk : Bool
  initialPos : ℤ × ℤ
  windowScale : ℚ

/-- `app.get_webview_window(label)`: first window with the given label. -/
def lookupWin (label : String) : List (String × WindowState) → Option WindowState
  | [] => none
  | (k, w) :: rest => if k = label then some w else lookupWin label rest

/-- Replace the state of the (first) window with the given label. -/
def setWin (label : String) (v : WindowState) :
    List (String × WindowState) → List (String × WindowState)
  | [] => []
  | (k, w) :: rest => if k = label then (k, v) :: rest else (k, w) :: setWin label v rest

/-- Number of registry entries with the given label. -/
def countName (label : String) : List (String × WindowState) → ℕ
  | [] => 0
  | (k, _) :: rest => (if k = label then 1 else 0) + countName label rest

/-- `window.inner_size()` in physical pixels: a logical size is converted via
the window's scale factor (Tauri's `to_physical`: round, saturating cast). -/
def inner_size (wscale : ℚ) (w : WindowState) : ℕ × ℕ :=
  match w.size with
  | WinSize.physical a b => (a, b)
  | WinSize.logical a b => (rustF64ToU32 (rustRound (a * wscale)),
                            rustF64ToU32 (rustRound (b * wscale)))

/-- `window.outer_size()`: the main window is built with
`.decorations(false)`, so outer size equals inner size. -/
def outer_size (wscale : ℚ) (w : WindowState) : ℕ × ℕ := inner_size wscale w

/-! ### Placement engine -/

/-- `mouse_pos.0/1 >= monitor_x/y && mouse_pos.0/1 < monitor_x/y + size`
(`lib.rs` lines 216–220). -/
def monitor_contains (m : Monitor) (p : ℤ × ℤ) : Bool :=
  decide (m.posX ≤ p.1) && decide (p.1 < m.posX + u32_to_i32 m.width) &&
  decide (m.posY ≤ p.2) && decide (p.2 < m.posY + u32_to_i32 m.height)

/-- The monitor loop of `center_window_on_monitor_with_mouse` (`lib.rs`
lines 206–234): on the first monitor containing the mouse, if
`window.outer_size()` succeeded, compute the centered position (Rust `i32`
division truncates toward zero: `Int.tdiv`) and stop; the loop `break`s on
the first containing monitor whether or not the outer size was available. -/
def findCenter (p : ℤ × ℤ) (outer : Option (ℕ × ℕ)) : List Monitor → Option (ℤ × ℤ)
  | [] => none
  | m :: rest =>
    if monitor_contains m p then
      match outer with
      | some wsz =>
        some (m.posX + Int.tdiv (u32_to_i32 m.width - u32_to_i32 wsz.1) 2,
              m.posY + Int.tdiv (u32_to_i32 m.height - u32_to_i32 wsz.2) 2)
      | none => none
    else findCenter p outer rest

/-- `center_window_on_monitor_with_mouse` (`lib.rs` lines 193–235), as the
position handed to `window.set_position` (`none` = no `set_position` call:
mouse query failed, monitor enumeration failed, no monitor contains the
mouse, or `outer_size` failed). -/
def center_window_on_monitor_with_mouse (mouse : Option (ℤ × ℤ))
    (monitors : Option (List Monitor)) (outer : Option (ℕ × ℕ)) : Option (ℤ × ℤ) :=
  match mouse with
  | none => none
  | some p =>
    match monitors with
    | none => none
    | some ms => findCenter p outer ms

/-- Effect of `center_window_on_monitor_with_mouse` on a window's state: only
its position can change, and only when a centering target was computed. -/
def applyCenterMouse (env : Env) (w : WindowState) : WindowState :=
  match center_window_on_monitor_with_mouse env.mouse env.monitors
      (some (outer_size env.windowScale w)) with
  | some p => { w with pos := p }
  | none => w

/-! ### Window lifecycle controller -/

/-- `create_or_focus_main_window` (`lib.rs` lines 237–291).  Existing window:
center, `show`, `set_focus`, pulse always-on-top (`true` then `false`), then
emit `new-chat` if requested.  Otherwise build a fresh window (builder
defaults: visible, focused, not always-on-top; label `"main"`, logical size
800×150, no decorations), center it, pulse always-on-top, emit if requested;
if the build fails nothing happens. -/
def create_or_focus_main_window (new_chat : Bool) (env : Env) (st : AppState) : AppState :=
  match lookupWin "main" st.windows with
  | some w =>
    let w1 := applyCenterMouse env w
    let w2 := { w1 with visible := true, focused := true, alwaysOnTop := false }
    { windows := setWin "main" w2 st.windows,
      emitted := st.emitted ++ (if new_chat then ["new-chat"] else []) }
  | none =>
    if env.buildOk then
      let w0 : WindowState :=
        { visible := true, focused := true, alwaysOnTop := false,
          pos := env.initialPos, size := WinSize.logical 800 150 }
      let w1 := applyCenterMouse env w0
      let w2 := { w1 with alwaysOnTop := false }
      { windows := st.windows ++ [("main", w2)],
        emitted := st.emitted ++ (if new_chat then ["new-chat"] else []) }
    else st

/-- `resize_window` (`lib.rs` lines 127–155): with a main window and a current
monitor, the new physical height is `(monitor.height as f64 * pct).round() as
u32`, the width is the current inner width, and the window is moved to the
centered position computed from the monitor's origin/size and the new
height (i32 truncating division). -/
def resize_window (height_percentage : ℚ) (env : Env) (st : AppState) : AppState :=
  match lookupWin "main" st.windows with
  | none => st
  | some w =>
    match env.currentMonitor with
    | none => st
    | some m =>
      let new_height : ℕ := rustF64ToU32 (rustRound ((m.height : ℚ) * height_percentage))
      let cur := inner_size env.windowScale w
      let x := m.posX + Int.tdiv (u32_to_i32 m.width - u32_to_i32 cur.1) 2
      let y := m.posY + Int.tdiv (u32_to_i32 m.height - u32_to_i32 new_height) 2
      let w1 := { w with size := WinSize.physical cur.1 new_height, pos := (x, y) }
      { st with windows := setWin "main" w1 st.windows }

/-- `reset_window` (`lib.rs` lines 157–184): set the logical size 800×150;
then, if a current monitor is known, convert 800×150 to physical pixels with
the monitor's scale factor (`(800.0 * scale_factor) as i32`: truncating
saturating cast) and move to the centered position. -/
def reset_window (env : Env) (st : AppState) : AppState :=
  match lookupWin "main" st.windows with
  | none => st
  | some w =>
    let w1 := { w with size := WinSize.logical 800 150 }
    match env.currentMonitor with
    | none => { st with windows := setWin "main" w1 st.windows }
    | some m =>
      let width_physical := rustF64ToI32 (800 * m.scaleFactor)
      let height_physical := rustF64ToI32 (150 * m.scaleFactor)
      let x := m.posX + Int.tdiv (u32_to_i32 m.width - width_physical) 2
      let y := m.posY + Int.tdiv (u32_to_i32 m.height - height_physical) 2
      let w2 := { w1 with pos := (x, y) }
      { st with windows := setWin "main" w2 st.windows }

/-! ### Registry lemmas -/

theorem lookupWin_setWin_self (label : String) (v : WindowState)
    (l : List (String × WindowState)) (w : WindowState)
    (h : lookupWin label l = some w) :
    lookupWin label (setWin label v l) = some v := by
  induction l with
  | nil => simp [lookupWin] at h
  | cons hd tl ih =>
    obtain ⟨k, x⟩ := hd
    by_cases hk : k = label
    · simp [lookupWin, setWin, hk]
    · simp only [lookupWin, setWin, if_neg hk] at h ⊢
      exact ih h

theorem countName_setWin (label : String) (v : WindowState)
    (l : List (String × WindowState)) :
    countName label (setWin label v l) = countName label l := by
  induction l with
  | nil => rfl
  | cons hd tl ih =>
    obtain ⟨k, x⟩ := hd
    by_cases hk : k = label
    · simp [countName, setWin, hk]
    · simp [countName, setWin, hk, ih]

theorem countName_of_lookup_none (label : String)
    (l : List (String × WindowState)) (h : lookupWin label l = none) :
    countName label l = 0 := by
  induction l with
  | nil => rfl
  | cons hd tl ih =>
    obtain ⟨k, x⟩ := hd
    by_cases hk : k = label
    · simp [lookupWin, hk] at h
    · simp only [lookupWin, if_neg hk] at h
      simp [countName, hk, ih h]

theorem lookupWin_append_single (label : String) (v : WindowState)
    (l : List (String × WindowState)) (h : lookupWin label l = none) :
    lookupWin label (l ++ [(label, v)]) = some v := by
  induction l with
  | nil => simp [lookupWin]
  | cons hd tl ih =>
    obtain ⟨k, x⟩ := hd
    by_cases hk : k = label
    · simp [lookupWin, hk] at h
    · simp only [lookupWin, if_neg hk] at h
      simp [lookupWin, hk, ih h]

theorem countName_append_single (label : String) (v : WindowState)
    (l : List (String × WindowState)) :
    countName label (l ++ [(label, v)]) = countName label l + 1 := by
  induction l with
  | nil => simp [countName]
  | cons hd tl ih =>
    obtain ⟨k, x⟩ := hd
    by_cases hk : k = label
    · simp [countName, hk, ih]; omega
    · simp [countName, hk, ih]

theorem one_le_countName_of_lookup_some (label : String)
    (l : List (String × WindowState)) (w : WindowState)
    (h : lookupWin label l = some w) : 1 ≤ countName label l := by
  induction l with
  | nil => simp [lookupWin] at h
  | cons hd tl ih =>
    obtain ⟨k, x⟩ := hd
    by_cases hk : k = label
    · simp [countName, hk]
    · simp only [lookupWin, if_neg hk] at h
      simpa [countName, hk] using ih h

theorem setWin_setWin (label : String) (v : WindowState)
    (l : List (String × WindowState)) :
    setWin label v (setWin label v l) = setWin label v l := by
  induction l with
  | nil => rfl
  | cons hd tl ih =>
    obtain ⟨k, x⟩ := hd
    by_cases hk : k = label
    · simp [setWin, hk]
    · simp [setWin, hk, ih]

/-! ### Claims about the placement engine -/

theorem findCenter_none (p : ℤ × ℤ) (outer : Option (ℕ × ℕ)) (ms : List Monitor)
    (h : ∀ m ∈ ms, monitor_contains m p = false) :
    findCenter p outer ms = none := by
  induction ms with
  | nil => rfl
  | cons m rest ih =>
    simp only [findCenter, h m (List.mem_cons_self m rest), if_false, Bool.false_eq_true]
    exact ih fun m' hm' => h m' (List.mem_cons_of_mem m hm')

/-- Claim C1, counterexample to the claim as stated: a 103×103 window on the
100×100 monitor under the mouse.  The code computes the top-left with Rust's
truncating `i32` division, `(100 − 103) / 2 = -1`, whereas the claimed
floor division gives `⌊(100 − 103) / 2⌋ = -2`. -/
theorem c1_center_floor_counterexample :
    center_window_on_monitor_with_mouse (some (0, 0))
        (some [{ posX := 0, posY := 0, width := 100, height := 100, scaleFactor := 1 }])
        (some (103, 103)) = some (-1, -1) ∧
    (0 : ℤ) + Int.fdiv (u32_to_i32 100 - u32_to_i32 103) 2 = -2 := by
  constructor
  · rfl
  · decide

/-- Claim C1 (amended): if the mouse point lies inside the rectangle of some
monitor, `center_window_on_monitor_with_mouse` selects the first such monitor
in OS-reported order and moves the window so its top-left equals
`monitor.origin + (monitor.size − window.outerSize) / 2` computed with
integer division truncating toward zero (Rust `i32` division; this equals
floor division whenever the window is no larger than the monitor),
independently of any other monitors present. -/
theorem c1_center_on_first_containing_monitor (p : ℤ × ℤ) (pre post : List Monitor)
    (m : Monitor) (wsz : ℕ × ℕ)
    (hpre : ∀ m' ∈ pre, monitor_contains m' p = false)
    (hm : monitor_contains m p = true) :
    center_window_on_monitor_with_mouse (some p) (some (pre ++ m :: post)) (some wsz) =
      some (m.posX + Int.tdiv (u32_to_i32 m.width - u32_to_i32 wsz.1) 2,
            m.posY + Int.tdiv (u32_to_i32 m.height - u32_to_i32 wsz.2) 2) := by
  induction pre with
  | nil => simp [center_window_on_monitor_with_mouse, findCenter, hm]
  | cons m0 rest ih =>
    have h0 : monitor_contains m0 p = false := hpre m0 (List.mem_cons_self m0 rest)
    simp only [center_window_on_monitor_with_mouse, List.cons_append, findCenter, h0,
      if_false, Bool.false_eq_true] at ih ⊢
    exact ih fun m' hm' => hpre m' (List.mem_cons_of_mem m0 hm')

theorem c1_center_on_first_containing_monitor_witness :
    monitor_contains { posX := 0, posY := 0, width := 100, height := 100, scaleFactor := 1 }
        (10, 10) = true ∧
    center_window_on_monitor_with_mouse (some (10, 10))
        (some [{ posX := 0, posY := 0, width := 100, height := 100, scaleFactor := 1 }])
        (some (50, 30)) = some (25, 35) :=
  ⟨by decide,
    c1_center_on_first_containing_monitor (10, 10) [] []
      { posX := 0, posY := 0, width := 100, height := 100, scaleFactor := 1 } (50, 30)
      (fun m' hm' => by simp at hm') (by decide)⟩

/-- Claim C4: if the mouse position query fails, or the mouse point lies
outside every monitor's rectangle, `center_window_on_monitor_with_mouse`
leaves the window completely unchanged (its position, and every other
attribute, since the only effect of the function is an optional
`set_position`). -/
theorem c4_no_move_when_mouse_unavailable_or_outside (env : Env) (w : WindowState)
    (h : env.mouse = none ∨
      ∃ p ms, env.mouse = some p ∧ env.monitors = some ms ∧
        ∀ m ∈ ms, monitor_contains m p = false) :
    applyCenterMouse env w = w := by
  rcases h with h | ⟨p, ms, hp, hms, hout⟩
  · simp [applyCenterMouse, center_window_on_monitor_with_mouse, h]
  · simp [applyCenterMouse, center_window_on_monitor_with_mouse, hp, hms,
      findCenter_none p _ ms hout]

theorem c4_no_move_when_mouse_unavailable_or_outside_witness :
    ((none : Option (ℤ × ℤ)) = none ∨
      ∃ p ms, (none : Option (ℤ × ℤ)) = some p ∧
        (some [] : Option (List Monitor)) = some ms ∧
        ∀ m ∈ ms, monitor_contains m p = false) ∧
    applyCenterMouse
        { mouse := none, monitors := some [], currentMonitor := none, buildOk := true,
          initialPos := (0, 0), windowScale := 1 }
        { visible := true, focused := true, alwaysOnTop := false,
          pos := (7, 7), size := WinSize.physical 800 150 } =
      { visible := true, focused := true, alwaysOnTop := false,
        pos := (7, 7), size := WinSize.physical 800 150 } :=
  ⟨Or.inl rfl,
    c4_no_move_when_mouse_unavailable_or_outside
      { mouse := none, monitors := some [], currentMonitor := none, buildOk := true,
        initialPos := (0, 0), windowScale := 1 }
      { visible := true, focused := true, alwaysOnTop := false,
        pos := (7, 7), size := WinSize.physical 800 150 }
      (Or.inl rfl)⟩

/-! ### Claims about the window lifecycle controller -/

theorem applyCenterMouse_fields (env : Env) (w : WindowState) :
    (applyCenterMouse env w).visible = w.visible ∧
    (applyCenterMouse env w).focused = w.focused ∧
    (applyCenterMouse env w).alwaysOnTop = w.alwaysOnTop ∧
    (applyCenterMouse env w).size = w.size := by
  unfold applyCenterMouse
  cases center_window_on_monitor_with_mouse env.mouse env.monitors
      (some (outer_size env.windowScale w)) <;> simp

theorem cof_existing (new_chat : Bool) (env : Env) (st : AppState) (w : WindowState)
    (h : lookupWin "main" st.windows = some w) :
    ∃ w2, lookupWin "main" (create_or_focus_main_window new_chat env st).windows = some w2 ∧
      w2.visible = true ∧ w2.focused = true ∧ w2.alwaysOnTop = false ∧
      countName "main" (create_or_focus_main_window new_chat env st).windows =
        countName "main" st.windows := by
  refine ⟨{ applyCenterMouse env w with
            visible := true, focused := true, alwaysOnTop := false }, ?_, rfl, rfl, rfl, ?_⟩
  · simp only [create_or_focus_main_window, h]
    exact lookupWin_setWin_self "main" _ st.windows w h
  · simp only [create_or_focus_main_window, h]
    exact countName_setWin "main" _ st.windows

theorem cof_created (new_chat : Bool) (env : Env) (st : AppState)
    (hn : lookupWin "main" st.windows = none) (hb : env.buildOk = true) :
    ∃ w2, lookupWin "main" (create_or_focus_main_window new_chat env st).windows = some w2 ∧
      w2.visible = true ∧ w2.focused = true ∧ w2.alwaysOnTop = false ∧
      countName "main" (create_or_focus_main_window new_chat env st).windows =
        countName "main" st.windows + 1 := by
  have hfields := applyCenterMouse_fields env
    { visible := true, focused := true, alwaysOnTop := false,
      pos := env.initialPos, size := WinSize.logical 800 150 }
  refine ⟨{ applyCenterMouse env
            { visible := true, focused := true, alwaysOnTop := false,
              pos := env.initialPos, size := WinSize.logical 800 150 } with
            alwaysOnTop := false }, ?_, ?_, ?_, rfl, ?_⟩
  · simp only [create_or_focus_main_window, hn, hb, if_true]
    exact lookupWin_append_single "main" _ st.windows hn
  · exact hfields.1
  · exact hfields.2.1
  · simp only [create_or_focus_main_window, hn, hb, if_true]
    exact countName_append_single "main" _ st.windows

theorem cof_noop (new_chat : Bool) (env : Env) (st : AppState)
    (hn : lookupWin "main" st.windows = none) (hb : env.buildOk = false) :
    create_or_focus_main_window new_chat env st = st := by
  simp [create_or_focus_main_window, hn, hb]

/-- Claim C2: starting from any state with at most one `"main"` window,
calling `create_or_focus_main_window` twice in succession (with any
`new_chat` arguments and environments) never produces two `"main"` windows;
and — provided the first call's window construction succeeds when it has to
build one — after the two calls exactly one `"main"` window exists, it is
visible and focused, and its always-on-top flag is `false`. -/
theorem c2_create_or_focus_singleton (b1 b2 : Bool) (env1 env2 : Env) (st : AppState)
    (hcount : countName "main" st.windows ≤ 1) :
    countName "main"
        (create_or_focus_main_window b2 env2
          (create_or_focus_main_window b1 env1 st)).windows ≤ 1 ∧
    (env1.buildOk = true →
      countName "main"
          (create_or_focus_main_window b2 env2
            (create_or_focus_main_window b1 env1 st)).windows = 1 ∧
      ∃ w, lookupWin "main"
            (create_or_focus_main_window b2 env2
              (create_or_focus_main_window b1 env1 st)).windows = some w ∧
        w.visible = true ∧ w.focused = true ∧ w.alwaysOnTop = false) := by
  cases hl : lookupWin "main" st.windows with
  | some w =>
    obtain ⟨wA, hAl, _, _, _, hAc⟩ := cof_existing b1 env1 st w hl
    obtain ⟨wB, hBl, hBv, hBf, hBa, hBc⟩ :=
      cof_existing b2 env2 (create_or_focus_main_window b1 env1 st) wA hAl
    have h1 : 1 ≤ countName "main" st.windows :=
      one_le_countName_of_lookup_some "main" st.windows w hl
    constructor
    · rw [hBc, hAc]; exact hcount
    · intro _
      exact ⟨by rw [hBc, hAc]; omega, wB, hBl, hBv, hBf, hBa⟩
  | none =>
    have h0 : countName "main" st.windows = 0 := countName_of_lookup_none "main" st.windows hl
    cases hb1 : env1.buildOk with
    | true =>
      obtain ⟨wA, hAl, _, _, _, hAc⟩ := cof_created b1 env1 st hl hb1
      obtain ⟨wB, hBl, hBv, hBf, hBa, hBc⟩ :=
        cof_existing b2 env2 (create_or_focus_main_window b1 env1 st) wA hAl
      constructor
      · rw [hBc, hAc]; omega
      · intro _
        exact ⟨by rw [hBc, hAc]; omega, wB, hBl, hBv, hBf, hBa⟩
    | false =>
      rw [cof_noop b1 env1 st hl hb1]
      constructor
      · cases hb2 : env2.buildOk with
        | true =>
          obtain ⟨wB, _, _, _, _, hBc⟩ := cof_created b2 env2 st hl hb2
          rw [hBc]; omega
        | false =>
          rw [cof_noop b2 env2 st hl hb2, h0]; omega
      · intro hcontra
        simp at hcontra

theorem c2_create_or_focus_singleton_witness :
    countName "main" (AppState.mk [] []).windows ≤ 1 ∧
    (countName "main"
        (create_or_focus_main_window false
          { mouse := none, monitors := none, currentMonitor := none, buildOk := true,
            initialPos := (0, 0), windowScale := 1 }
          (create_or_focus_main_window true
            { mouse := none, monitors := none, currentMonitor := none, buildOk := true,
              initialPos := (0, 0), windowScale := 1 }
            (AppState.mk [] []))).windows ≤ 1 ∧
      ({ mouse := none, monitors := none, currentMonitor := none, buildOk := true,
          initialPos := (0, 0), windowScale := 1 : Env }.buildOk = true →
        countName "main"
            (create_or_focus_main_window false
              { mouse := none, monitors := none, currentMonitor := none, buildOk := true,
                initialPos := (0, 0), windowScale := 1 }
              (create_or_focus_main_window true
                { mouse := none, monitors := none, currentMonitor := none, buildOk := true,
                  initialPos := (0, 0), windowScale := 1 }
                (AppState.mk [] []))).windows = 1 ∧
        ∃ w, lookupWin "main"
              (create_or_focus_main_window false
                { mouse := none, monitors := none, currentMonitor := none, buildOk := true,
                  initialPos := (0, 0), windowScale := 1 }
                (create_or_focus_main_window true
                  { mouse := none, monitors := none, currentMonitor := none, buildOk := true,
                    initialPos := (0, 0), windowScale := 1 }
                  (AppState.mk [] []))).windows = some w ∧
          w.visible = true ∧ w.focused = true ∧ w.alwaysOnTop = false)) :=
  ⟨by decide,
    c2_create_or_focus_singleton true false
      { mouse := none, monitors := none, currentMonitor := none, buildOk := true,
        initialPos := (0, 0), windowScale := 1 }
      { mouse := none, monitors := none, currentMonitor := none, buildOk := true,
        initialPos := (0, 0), windowScale := 1 }
      (AppState.mk [] []) (by decide)⟩

/-- Claim C3: from every starting state in which the `"main"` window exists
(or, when it does not, the window construction succeeds), a single call with
`new_chat = true` appends exactly one `new-chat` event (whose payload is the
unit value) to the emitted-event trace, and a single call with
`new_chat = false` appends none. -/
theorem c3_new_chat_event_emission (env : Env) (st : AppState)
    (h : (lookupWin "main" st.windows).isSome = true ∨ env.buildOk = true) :
    (create_or_focus_main_window true env st).emitted = st.emitted ++ ["new-chat"] ∧
    (create_or_focus_main_window false env st).emitted = st.emitted := by
  cases hl : lookupWin "main" st.windows with
  | some w => constructor <;> simp [create_or_focus_main_window, hl]
  | none =>
    have hb : env.buildOk = true := by
      rcases h with h | h
      · rw [hl] at h; simp at h
      · exact h
    constructor <;> simp [create_or_focus_main_window, hl, hb]

theorem c3_new_chat_event_emission_witness :
    ((lookupWin "main" (AppState.mk [] ["boot"]).windows).isSome = true ∨
      ({ mouse := none, monitors := none, currentMonitor := none, buildOk := true,
          initialPos := (0, 0), windowScale := 1 : Env }.buildOk = true)) ∧
    (create_or_focus_main_window true
        { mouse := none, monitors := none, currentMonitor := none, buildOk := true,
          initialPos := (0, 0), windowScale := 1 }
        (AppState.mk [] ["boot"])).emitted = ["boot"] ++ ["new-chat"] ∧
    (create_or_focus_main_window false
        { mouse := none, monitors := none, currentMonitor := none, buildOk := true,
          initialPos := (0, 0), windowScale := 1 }
        (AppState.mk [] ["boot"])).emitted = ["boot"] :=
  ⟨Or.inr rfl,
    c3_new_chat_event_emission
      { mouse := none, monitors := none, currentMonitor := none, buildOk := true,
        initialPos := (0, 0), windowScale := 1 }
      (AppState.mk [] ["boot"]) (Or.inr rfl)⟩

/-! ### Claims about resize and reset -/

theorem rustF64ToU32_of_bounds (x : ℤ) (h0 : 0 ≤ x) (h1 : x ≤ 4294967295) :
    rustF64ToU32 x = x.toNat := by
  unfold rustF64ToU32
  rw [if_neg (by omega)]
  exact min_eq_left (Int.toNat_le.mpr h1)

theorem rustRound_frac_bounds (H : ℕ) (frac : ℚ) (h0 : 0 ≤ frac) (h1 : frac ≤ 1) :
    0 ≤ rustRound ((H : ℚ) * frac) ∧ rustRound ((H : ℚ) * frac) ≤ (H : ℤ) := by
  have hq0 : 0 ≤ (H : ℚ) * frac := mul_nonneg (by positivity) h0
  have hqH : (H : ℚ) * frac ≤ (H : ℚ) := mul_le_of_le_one_right (by positivity) h1
  rw [rustRound, if_pos hq0, ratFloor_eq]
  constructor
  · exact Int.le_floor.mpr (by push_cast; linarith)
  · have hlt : ⌊(H : ℚ) * frac + 1 / 2⌋ < (H : ℤ) + 1 :=
      Int.floor_lt.mpr (by push_cast; linarith)
    omega

/-- Claim C7: for every `heightFraction ∈ [0, 1]`, if no current monitor can
be determined `resize_window` is a silent no-op, and if the `"main"` window
and a current monitor (of `u32`-ranged height `H`) exist, it sets the
window's physical size to the unchanged current width and height
`round(H × heightFraction)` and moves the window to the centered position
computed from the monitor's origin and size with the new height. -/
theorem c7_resize_height_fraction (frac : ℚ) (env : Env) (st : AppState)
    (h0 : 0 ≤ frac) (h1 : frac ≤ 1) :
    (env.currentMonitor = none → resize_window frac env st = st) ∧
    (∀ w m, lookupWin "main" st.windows = some w → env.currentMonitor = some m →
      m.height < 4294967296 →
      ∃ w', lookupWin "main" (resize_window frac env st).windows = some w' ∧
        w'.size = WinSize.physical (inner_size env.windowScale w).1
          (rustRound ((m.height : ℚ) * frac)).toNat ∧
        w'.pos =
          (m.posX + Int.tdiv
            (u32_to_i32 m.width - u32_to_i32 (inner_size env.windowScale w).1) 2,
           m.posY + Int.tdiv
            (u32_to_i32 m.height -
              u32_to_i32 ((rustRound ((m.height : ℚ) * frac)).toNat)) 2)) := by
  constructor
  · intro hm
    cases hw : lookupWin "main" st.windows with
    | none => simp [resize_window, hw]
    | some w => simp [resize_window, hw, hm]
  · intro w m hw hm _
    have hb := rustRound_frac_bounds m.height frac h0 h1
    have hcast : rustF64ToU32 (rustRound ((m.height : ℚ) * frac)) =
        (rustRound ((m.height : ℚ) * frac)).toNat :=
      rustF64ToU32_of_bounds _ hb.1 (by omega)
    simp only [resize_window, hw, hm]
    refine ⟨_, lookupWin_setWin_self "main" _ st.windows w hw, ?_, ?_⟩
    · simp [hcast]
    · simp [hcast]

theorem c7_resize_height_fraction_witness :
    (0 : ℚ) ≤ 1/2 ∧ (1/2 : ℚ) ≤ 1 ∧
    (∀ w m, lookupWin "main"
          (AppState.mk [("main",
            { visible := true, focused := true, alwaysOnTop := false,
              pos := (0, 0), size := WinSize.physical 800 150 })] []).windows = some w →
      ({ mouse := none, monitors := none,
          currentMonitor := some { posX := 0, posY := 0, width := 1920, height := 1080,
                                   scaleFactor := 1 },
          buildOk := true, initialPos := (0, 0), windowScale := 1 : Env }.currentMonitor
        = some m) →
      m.height < 4294967296 →
      ∃ w', lookupWin "main"
          (resize_window (1/2)
            { mouse := none, monitors := none,
              currentMonitor := some { posX := 0, posY := 0, width := 1920, height := 1080,
                                       scaleFactor := 1 },
              buildOk := true, initialPos := (0, 0), windowScale := 1 }
            (AppState.mk [("main",
              { visible := true, focused := true, alwaysOnTop := false,
                pos := (0, 0), size := WinSize.physical 800 150 })] [])).windows = some w' ∧
        w'.size = WinSize.physical (inner_size 1 w).1
          (rustRound ((m.height : ℚ) * (1/2))).toNat ∧
        w'.pos =
          (m.posX + Int.tdiv (u32_to_i32 m.width - u32_to_i32 (inner_size 1 w).1) 2,
           m.posY + Int.tdiv
            (u32_to_i32 m.height -
              u32_to_i32 ((rustRound ((m.height : ℚ) * (1/2))).toNat)) 2)) :=
  ⟨by norm_num, by norm_num,
    (c7_resize_height_fraction (1/2)
      { mouse := none, monitors := none,
        currentMonitor := some { posX := 0, posY := 0, width := 1920, height := 1080,
                                 scaleFactor := 1 },
        buildOk := true, initialPos := (0, 0), windowScale := 1 }
      (AppState.mk [("main",
        { visible := true, focused := true, alwaysOnTop := false,
          pos := (0, 0), size := WinSize.physical 800 150 })] [])
      (by norm_num) (by norm_num)).2⟩

/-- Claim C8: whenever the `"main"` window exists, `reset_window` sets it to
the fixed default logical size 800×150; when a current monitor is available
it additionally converts that logical size to physical pixels with the
monitor's scale factor and moves the window to the centered position on that
monitor; when no monitor is available the centering step is a no-op (the
position is unchanged); and calling it twice under the same environment
produces identical state both times. -/
theorem c8_reset_default_size_and_center (env : Env) (st : AppState) (w : WindowState)
    (hw : lookupWin "main" st.windows = some w) :
    (∃ w', lookupWin "main" (reset_window env st).windows = some w' ∧
      w'.size = WinSize.logical 800 150 ∧
      (env.currentMonitor = none → w'.pos = w.pos) ∧
      (∀ m, env.currentMonitor = some m →
        w'.pos =
          (m.posX + Int.tdiv (u32_to_i32 m.width - rustF64ToI32 (800 * m.scaleFactor)) 2,
           m.posY + Int.tdiv (u32_to_i32 m.height - rustF64ToI32 (150 * m.scaleFactor)) 2))) ∧
    reset_window env (reset_window env st) = reset_window env st := by
  constructor
  · cases hm : env.currentMonitor with
    | none =>
      simp only [reset_window, hw, hm]
      refine ⟨_, lookupWin_setWin_self "main" _ st.windows w hw, rfl, fun _ => rfl, ?_⟩
      intro m hcontra
      simp at hcontra
    | some m =>
      simp only [reset_window, hw, hm]
      refine ⟨_, lookupWin_setWin_self "main" _ st.windows w hw, rfl, ?_, ?_⟩
      · intro hcontra
        simp at hcontra
      · intro m' hm'
        cases hm'
        rfl
  · cases hm : env.currentMonitor with
    | none =>
      have hl1 := lookupWin_setWin_self "main"
        { w with size := WinSize.logical 800 150 } st.windows w hw
      simp only [reset_window, hw, hm, hl1]
      simp [setWin_setWin]
    | some m =>
      have hl1 := lookupWin_setWin_self "main"
        { w with size := WinSize.logical 800 150,
                 pos := (m.posX +
                           Int.tdiv (u32_to_i32 m.width - rustF64ToI32 (800 * m.scaleFactor)) 2,
                         m.posY +
                           Int.tdiv (u32_to_i32 m.height - rustF64ToI32 (150 * m.scaleFactor)) 2) }
        st.windows w hw
      simp only [reset_window, hw, hm, hl1]
      simp [setWin_setWin]

theorem c8_reset_default_size_and_center_witness :
    lookupWin "main"
        (AppState.mk [("main",
          { visible := true, focused := true, alwaysOnTop := false,
            pos := (5, 5), size := WinSize.physical 400 900 })] []).windows =
      some { visible := true, focused := true, alwaysOnTop := false,
             pos := (5, 5), size := WinSize.physical 400 900 } ∧
    ((∃ w', lookupWin "main"
          (reset_window
            { mouse := none, monitors := none,
              currentMonitor := some { posX := 0, posY := 0, width := 1920, height := 1080,
                                       scaleFactor := 2 },
              buildOk := true, initialPos := (0, 0), windowScale := 2 }
            (AppState.mk [("main",
              { visible := true, focused := true, alwaysOnTop := false,
                pos := (5, 5), size := WinSize.physical 400 900 })] [])).windows = some w' ∧
        w'.size = WinSize.logical 800 150 ∧
        (({ mouse := none, monitors := none,
            currentMonitor := some { posX := 0, posY := 0, width := 1920, height := 1080,
                                     scaleFactor := 2 },
            buildOk := true, initialPos := (0, 0), windowScale := 2 : Env }.currentMonitor
          = none) →
          w'.pos = ((5 : ℤ), (5 : ℤ))) ∧
        (∀ m,
          ({ mouse := none, monitors := none,
             currentMonitor := some { posX := 0, posY := 0, width := 1920, height := 1080,
                                      scaleFactor := 2 },
             buildOk := true, initialPos := (0, 0), windowScale := 2 : Env }.currentMonitor
            = some m) →
          w'.pos =
            (m.posX + Int.tdiv (u32_to_i32 m.width - rustF64ToI32 (800 * m.scaleFactor)) 2,
             m.posY + Int.tdiv (u32_to_i32 m.height - rustF64ToI32 (150 * m.scaleFactor)) 2))) ∧
      reset_window
          { mouse := none, monitors := none,
            currentMonitor := some { posX := 0, posY := 0, width := 1920, height := 1080,
                                     scaleFactor := 2 },
            buildOk := true, initialPos := (0, 0), windowScale := 2 }
          (reset_window
            { mouse := none, monitors := none,
              currentMonitor := some { posX := 0, posY := 0, width := 1920, height := 1080,
                                       scaleFactor := 2 },
              buildOk := true, initialPos := (0, 0), windowScale := 2 }
            (AppState.mk [("main",
              { visible := true, focused := true, alwaysOnTop := false,
                pos := (5, 5), size := WinSize.physical 400 900 })] [])) =
        reset_window
          { mouse := none, monitors := none,
            currentMonitor := some { posX := 0, posY := 0, width := 1920, height := 1080,
                                     scaleFactor := 2 },
            buildOk := true, initialPos := (0, 0), windowScale := 2 }
          (AppState.mk [("main",
            { visible := true, focused := true, alwaysOnTop := false,
              pos := (5, 5), size := WinSize.physical 400 900 })] [])) :=
  ⟨rfl,
    c8_reset_default_size_and_center
      { mouse := none, monitors := none,
        currentMonitor := some { posX := 0, posY := 0, width := 1920, height := 1080,
                                 scaleFactor := 2 },
        buildOk := true, initialPos := (0, 0), windowScale := 2 }
      (AppState.mk [("main",
        { visible := true, focused := true, alwaysOnTop := false,
          pos := (5, 5), size := WinSize.physical 400 900 })] [])
      { visible := true, focused := true, alwaysOnTop := false,
        pos := (5, 5), size := WinSize.physical 400 900 } rfl⟩

/-! ### Claims about the settings store and autostart synchronizer -/

/-- Claim C5: whenever no persisted config file exists, `load_settings`
succeeds and returns exactly the documented default record: empty `apiKey`,
the fixed default `selectedModel`, `darkMode = true`, `autoStart = false`,
the fixed three-line `systemPrompt`, a `modelShortcuts` map with exactly the
three entries keyed `h`, `f`, `o` bound to their fixed default model ids,
and `sendOnEnter = false`. -/
theorem c5_load_defaults_on_missing_file :
    load_settings none = Except.ok
      { api_key := ""
        selected_model := "openai/gpt-oss-120b"
        dark_mode := true
        auto_start := false
        system_prompt := "Keep your responses as concise, precise, to the point.\nAnswer the question in as few words as possible.\nNo Yapping."
        model_shortcuts := [("h", "google/gemini-3-pro-preview"),
                            ("f", "google/gemini-3-flash-preview"),
                            ("o", "openai/gpt-oss-120b")]
        send_on_enter := false } := rfl

/-- Claim C6: for every `Settings` record `s`, if `save_settings s` succeeds
then `load_settings` on the file it wrote returns a record equal to `s`,
field for field. -/
theorem c6_save_load_roundtrip (s : Settings) (env : AutostartEnv)
    (h : (save_settings s env).2 = Except.ok ()) :
    load_settings (save_settings s env).1 = Except.ok s := by
  simpa [load_settings, save_settings] using settings_roundtrip s

theorem c6_save_load_roundtrip_witness :
    (save_settings default_settings ⟨Except.ok false, Except.ok (), Except.ok ()⟩).2
      = Except.ok () ∧
    load_settings
        (save_settings default_settings ⟨Except.ok false, Except.ok (), Except.ok ()⟩).1
      = Except.ok default_settings :=
  ⟨rfl, c6_save_load_roundtrip default_settings ⟨Except.ok false, Except.ok (), Except.ok ()⟩ rfl⟩

/-- Claim C9: for every desired value and OS registration state,
`sync_launch_at_startup` performs an enable call exactly when the desired
value is `true` and the state is disabled, a disable call exactly when the
desired value is `false` and the state is enabled, and no OS toggle call at
all when the state already matches the desired value. -/
theorem c9_sync_minimal_toggles (desired cur : Bool) (env : AutostartEnv)
    (h : env.isEnabled = Except.ok cur) :
    (sync_launch_at_startup desired env).1 =
      if desired = cur then []
      else if desired = true then [OsCall.enableCall]
      else [OsCall.disableCall] := by
  cases desired <;> cases cur <;> simp [sync_launch_at_startup, h]

theorem c9_sync_minimal_toggles_witness :
    (⟨Except.ok false, Except.ok (), Except.ok ()⟩ : AutostartEnv).isEnabled
      = Except.ok false ∧
    (sync_launch_at_startup true ⟨Except.ok false, Except.ok (), Except.ok ()⟩).1
      = [OsCall.enableCall] :=
  ⟨rfl, c9_sync_minimal_toggles true false ⟨Except.ok false, Except.ok (), Except.ok ()⟩ rfl⟩

/-- Claim C10: when a persisted config file exists whose JSON object contains
the four plain fields but omits `systemPrompt`, `modelShortcuts` and
`sendOnEnter`, `load_settings` succeeds and fills the missing fields with the
empty string, the empty map and `false` — not with the documented first-run
defaults (the three-line prompt and the three-entry `h`/`f`/`o` map). -/
theorem c10_serde_defaults_not_first_run_defaults (a m : String) (d b : Bool) :
    load_settings (some (Json.obj
        [("apiKey", Json.str a), ("selectedModel", Json.str m),
         ("darkMode", Json.bool d), ("autoStart", Json.bool b)])) =
      Except.ok { api_key := a, selected_model := m, dark_mode := d, auto_start := b,
                  system_prompt := "", model_shortcuts := [], send_on_enter := false } ∧
    ("" : String) ≠ default_settings.system_prompt ∧
    ([] : List (String × String)) ≠ default_settings.model_shortcuts :=
  ⟨rfl, by decide, by decide⟩

end AiQuickAccess
